import Mathlib

/-!
Verification of the nRF24L01 driver sources against its design
specification.

The driver talks to the radio chip over SPI.  Every operation of the
driver is a straight-line or looping sequence of bus transactions
(register reads/writes, payload commands, FIFO flushes) plus CE pin
edges.  We embed each operation as a pure function from the chip's
responses (passed in explicitly, one tuple per bus read) to the list of
bus actions the driver performs, together with its return value.
Rust panics (assert failures, out-of-bounds slicing, unreachable match
arms) are modelled with `Except Crash`.  Register bitfield accessors
are translated bit-exactly from the `bitfield!` declarations in
`registers.rs` (a multi-bit setter masks the value to the field width
and a getter shifts and masks).
-/

set_option autoImplicit false

namespace Nrf24

/-! ### Register map addresses (`registers.rs`, `lib.rs`) -/

def CONFIG : Nat := 0x00
def EN_AA : Nat := 0x01
def EN_RXADDR : Nat := 0x02
def SETUP_RETR : Nat := 0x04
def RF_CH : Nat := 0x05
def RF_SETUP : Nat := 0x06
def STATUS : Nat := 0x07
def RX_ADDR_P0 : Nat := 0x0A
def RX_ADDR_P1 : Nat := 0x0B
def RX_ADDR_P2 : Nat := 0x0C
def RX_ADDR_P3 : Nat := 0x0D
def RX_ADDR_P4 : Nat := 0x0E
def RX_ADDR_P5 : Nat := 0x0F
def TX_ADDR : Nat := 0x10
def FIFO_STATUS : Nat := 0x17
def DYNPD : Nat := 0x1C
def FEATURE : Nat := 0x1D

/-! ### SPI command opcodes (`lib.rs`, `command.rs`) -/

def R_RX_PAYLOAD : Nat := 0x61
def R_RX_PL_WID : Nat := 0x60
def W_TX_PAYLOAD : Nat := 0xA0
def W_ACK_PAYLOAD : Nat := 0xA8
def FLUSH_TX : Nat := 0xE1
def FLUSH_RX : Nat := 0xE2

/-! ### Bitfield accessors

The `bitfield!` macro generates, for a field spanning bits `msb..lsb`
of a one-byte register, a setter that masks the argument to the field
width and splices it in, and a getter that shifts and masks.  Single
bit flags set or clear one bit. -/

/-- Splice value `v` into bits `msb..lsb` of byte `reg`, masking `v` to
the field width, exactly as the setters generated by `bitfield!` do. -/
def setBits (msb lsb : Nat) (reg v : Nat) : Nat :=
  let mask := 2 ^ (msb - lsb + 1) - 1
  (reg &&& (255 ^^^ (mask <<< lsb))) ||| ((v &&& mask) <<< lsb)

/-- Read bits `msb..lsb` of byte `reg`, as the getters generated by
`bitfield!` do. -/
def getBits (msb lsb : Nat) (reg : Nat) : Nat :=
  (reg >>> lsb) &&& (2 ^ (msb - lsb + 1) - 1)

/-- Set (`b = true`) or clear (`b = false`) bit `n` of byte `reg`. -/
def setFlag (n : Nat) (reg : Nat) (b : Bool) : Nat :=
  if b then reg ||| (1 <<< n) else reg &&& (255 ^^^ (1 <<< n))

/-! ### Bus actions

One constructor per kind of SPI transaction or CE pin edge the driver
can perform.  `writeReg` carries the data bytes following the
`W_REGISTER` opcode (a one-byte list for ordinary registers, three to
five bytes for address registers). -/

inductive Action where
  | ceHigh
  | ceLow
  | ceSave
  | ceRestore
  | readReg (addr : Nat)
  | writeReg (addr : Nat) (data : List Nat)
  | command (opcode : Nat) (data : List Nat)
  | readPlWidth
  | readPayload (width : Nat)
  | flushTx
  | flushRx
  deriving DecidableEq, Repr

/-- Rust panics that the driver sources can hit. -/
inductive Crash where
  | assertFailed
  | sliceOutOfBounds
  | noSuchPipe
  deriving DecidableEq, Repr

/-- Error values returned (as `anyhow` errors in `lib.rs`) by `push`. -/
inductive PushErr where
  | queueFull
  | packetTooBig
  deriving DecidableEq, Repr

/-! ### `TxMode::wait_empty` (`tx.rs` lines 67-92)

The chip responses are passed in as one `(status, fifo_status)` byte
pair per `read_register::<FifoStatus>()` call.  If the supplied list is
exhausted before a read reports `TX_EMPTY`, the loop has not terminated
within the provided responses and the result is `none` (the source loop
would continue polling forever). -/

/-- Byte written to STATUS inside `wait_empty`: `Status(0)` with
`set_tx_ds(true)` (bit 5) and `set_max_rt(true)` (bit 4). -/
def clearTxByte : Nat := setFlag 4 (setFlag 5 0 true) true

/-- Model of `TxMode::wait_empty`.  Per iteration: read `FIFO_STATUS`
(receiving the status byte `s` and the fifo byte `f`), if the TX FIFO is
not empty (bit 4 of `f` clear) re-assert CE, and if `MAX_RT` (bit 4 of
`s`) is set issue `FlushTx` followed by a STATUS write clearing
TX_DS and MAX_RT.  The loop exits after the first read with TX_EMPTY
set, and then CE is lowered. -/
def wait_empty : List (Nat × Nat) → Option (List Action)
  | [] => none
  | (s, f) :: rest =>
    let empty := f.testBit 4
    let t := Action.readReg FIFO_STATUS
      :: ((if empty then [] else [Action.ceHigh])
        ++ (if s.testBit 4 then [Action.flushTx, Action.writeReg STATUS [clearTxByte]] else []))
    if empty then some (t ++ [Action.ceLow])
    else (wait_empty rest).map (fun tr => t ++ tr)

/-- Bus actions of one `wait_empty` loop iteration that observed status
byte `s` and FIFO_STATUS byte `f`. -/
def iterTrace (s f : Nat) : List Action :=
  Action.readReg FIFO_STATUS
    :: ((if f.testBit 4 then [] else [Action.ceHigh])
      ++ (if s.testBit 4 then [Action.flushTx, Action.writeReg STATUS [clearTxByte]] else []))

/-- Index of the first chip response whose FIFO_STATUS byte has TX_EMPTY
(bit 4) set. -/
def firstEmpty : List (Nat × Nat) → Option Nat
  | [] => none
  | p :: rest => if p.2.testBit 4 then some 0 else (firstEmpty rest).map (· + 1)

/-- C1: `wait_empty` consumes FIFO_STATUS reads up to and including the
first one reporting TX_EMPTY; every consumed iteration whose status
byte has MAX_RT set contributes a `FlushTx` followed by a STATUS write
of `clearTxByte` (which has both TX_DS, bit 5, and MAX_RT, bit 4, set);
iterations that saw a non-empty FIFO re-assert CE; CE is lowered exactly
once, immediately after the iteration that observed the empty TX FIFO;
and if no read ever reports TX_EMPTY the loop does not terminate
(result `none`). -/
theorem wait_empty_flushes_on_max_rt_and_exits_on_empty :
    (∀ reads, wait_empty reads
      = (firstEmpty reads).map
          (fun i => ((reads.take (i + 1)).map (fun p => iterTrace p.1 p.2)).flatten ++ [Action.ceLow]))
    ∧ Nat.testBit clearTxByte 5 = true ∧ Nat.testBit clearTxByte 4 = true := by
  refine ⟨?_, by decide, by decide⟩
  intro reads
  induction reads with
  | nil => rfl
  | cons p rest ih =>
    obtain ⟨s, f⟩ := p
    by_cases h : f.testBit 4
    · simp [wait_empty, firstEmpty, h, iterTrace]
    · simp only [wait_empty, firstEmpty, h, if_neg, Bool.false_eq_true, ite_false, ih]
      cases hr : firstEmpty rest with
      | none => simp
      | some i =>
        simp [iterTrace, h, List.append_assoc]

/-! ### Register encode/decode (`registers.rs`)

`impl_register!` gives every one-byte register
`encode(buf) = buf[0] := value` and `decode(buf) = Reg(buf[0])`.
`def_address_register!` stores up to `MAX_ADDR_BYTES` address bytes
plus the stored length; `decode` asserts the buffer length is within
`[MIN_ADDR_BYTES, MAX_ADDR_BYTES]`, copies it into a zeroed 5-byte
array and records the length; `encode` emits the first `len` stored
bytes.  `MIN_ADDR_BYTES = 3` and `MAX_ADDR_BYTES = 5` are the crate
constants (the spec fixes the address width range to 3..5 bytes). -/

def MIN_ADDR_BYTES : Nat := 3
def MAX_ADDR_BYTES : Nat := 5

/-- Encoding of a one-byte register holding byte `v`
(`impl_register!`: `buf[0] = self.0`). -/
def encodeSimple (v : Nat) : List Nat := [v]

/-- Decoding of a one-byte register (`impl_register!`:
`$name(buf[0])`; the source indexes `buf[0]`, which only ever runs on
the one-byte buffer the read command produced). -/
def decodeSimple (buf : List Nat) : Nat := buf.headI

/-- Value of an address register (`def_address_register!`): a 5-byte
backing array and the stored length. -/
structure AddrReg where
  addr : List Nat
  len : Nat
  deriving DecidableEq, Repr

/-- Decoding of an address register: assert `3 <= buf.len() <= 5`
(modelled by returning `none` where the source panics), copy `buf` into
a zeroed `MAX_ADDR_BYTES` array, record the length. -/
def decodeAddr (buf : List Nat) : Option AddrReg :=
  if MIN_ADDR_BYTES ≤ buf.length ∧ buf.length ≤ MAX_ADDR_BYTES then
    some { addr := buf ++ List.replicate (MAX_ADDR_BYTES - buf.length) 0, len := buf.length }
  else
    none

/-- Encoding of an address register: the first `len` stored bytes
(`buf.copy_from_slice(&self.addr[0..len])`). -/
def encodeAddr (r : AddrReg) : List Nat := r.addr.take r.len

/-- C2: decode-after-encode round-trip.  Every one-byte register value
decodes back from its encoding, and every representable address
register value (i.e. every value produced by `decode`, which is the
only constructor and requires a stored length of 3 to 5 bytes) decodes
back from its encoding. -/
theorem register_encode_decode_roundtrip :
    (∀ v, decodeSimple (encodeSimple v) = v)
    ∧ (∀ buf x, decodeAddr buf = some x → decodeAddr (encodeAddr x) = some x) := by
  constructor
  · intro v
    rfl
  · intro buf x h
    by_cases hc : MIN_ADDR_BYTES ≤ buf.length ∧ buf.length ≤ MAX_ADDR_BYTES
    · rw [decodeAddr, if_pos hc] at h
      obtain rfl : AddrReg.mk (buf ++ List.replicate (MAX_ADDR_BYTES - buf.length) 0)
          buf.length = x := Option.some.inj h
      have henc : encodeAddr
          (AddrReg.mk (buf ++ List.replicate (MAX_ADDR_BYTES - buf.length) 0)
            buf.length) = buf := by
        simp [encodeAddr, List.take_left buf (List.replicate (MAX_ADDR_BYTES - buf.length) 0)]
      rw [henc, decodeAddr, if_pos hc]
    · rw [decodeAddr, if_neg hc] at h
      cases h

/-- C2 witness: the round-trip theorem applied to the concrete 3-byte
address `[1, 2, 3]`. -/
theorem register_encode_decode_roundtrip_witness :
    decodeAddr [1, 2, 3] = some { addr := [1, 2, 3, 0, 0], len := 3 }
    ∧ decodeAddr (encodeAddr { addr := [1, 2, 3, 0, 0], len := 3 })
      = some { addr := [1, 2, 3, 0, 0], len := 3 } :=
  ⟨by decide,
   register_encode_decode_roundtrip.2 [1, 2, 3] { addr := [1, 2, 3, 0, 0], len := 3 } (by decide)⟩

/-! ### `NRF24L01::push` (`lib.rs` lines 694-716) and `TxMode::send`
(`tx.rs` lines 56-60)

`push` first reads FIFO_STATUS (one bus transaction, yielding the
status byte `s` and the FIFO_STATUS byte `f`); if STATUS.TX_FULL
(bit 0 of `s`) or FIFO_STATUS.TX_FULL (bit 5 of `f`) is set it fails
with the queue-full error.  Otherwise it selects the opcode
(`W_ACK_PAYLOAD | pipe`, with a pipe above 5 capped to 5, in receiver
mode; `W_TX_PAYLOAD` in transmitter mode), rejects payloads longer
than 32 bytes, and finally sends `opcode :: data` on the bus. -/

/-- Model of `NRF24L01::push`.  Returns the bus actions performed and
the error, if any. -/
def push (is_receiver : Bool) (s f : Nat) (pipe_num : Nat) (data : List Nat) :
    List Action × Option PushErr :=
  if s &&& 1 ≠ 0 ∨ f &&& 32 ≠ 0 then
    ([Action.readReg FIFO_STATUS], some PushErr.queueFull)
  else
    let command :=
      if is_receiver then
        let actual_pipe_num := if pipe_num < 6 then pipe_num else 5
        W_ACK_PAYLOAD ||| actual_pipe_num
      else W_TX_PAYLOAD
    if data.length > 32 then
      ([Action.readReg FIFO_STATUS], some PushErr.packetTooBig)
    else
      ([Action.readReg FIFO_STATUS, Action.command command data], none)

/-- Model of `TxMode::send`: issue `WriteTxPayload` (opcode
`0xA0` followed by the whole packet slice, whatever its length) and
raise CE.  There is no validation and no error path other than bus
errors. -/
def send (packet : List Nat) : List Action :=
  [Action.command W_TX_PAYLOAD packet, Action.ceHigh]

/-! ### `Configuration::set_rx_addr` (`config.rs` lines 149-175)

Dispatches on the pipe number; pipes 0 and 1 construct a full address
register (whose `decode` asserts a 3..5-byte buffer), pipes 2..5
construct a one-byte register (whose `new` asserts a 1-byte buffer),
and any other pipe number hits `panic!("No such pipe")`. -/

/-- Model of `Configuration::set_rx_addr`. -/
def set_rx_addr (pipe_no : Nat) (addr : List Nat) : Except Crash Action :=
  match pipe_no with
  | 0 =>
    if MIN_ADDR_BYTES ≤ addr.length ∧ addr.length ≤ MAX_ADDR_BYTES then
      Except.ok (Action.writeReg RX_ADDR_P0 addr)
    else Except.error Crash.assertFailed
  | 1 =>
    if MIN_ADDR_BYTES ≤ addr.length ∧ addr.length ≤ MAX_ADDR_BYTES then
      Except.ok (Action.writeReg RX_ADDR_P1 addr)
    else Except.error Crash.assertFailed
  | 2 =>
    if addr.length = 1 then Except.ok (Action.writeReg RX_ADDR_P2 addr)
    else Except.error Crash.assertFailed
  | 3 =>
    if addr.length = 1 then Except.ok (Action.writeReg RX_ADDR_P3 addr)
    else Except.error Crash.assertFailed
  | 4 =>
    if addr.length = 1 then Except.ok (Action.writeReg RX_ADDR_P4 addr)
    else Except.error Crash.assertFailed
  | 5 =>
    if addr.length = 1 then Except.ok (Action.writeReg RX_ADDR_P5 addr)
    else Except.error Crash.assertFailed
  | _ => Except.error Crash.noSuchPipe

/-- C4 counterexample: at pipe 6 the claim fails in both cited
functions.  `set_rx_addr` panics (`panic!("No such pipe")`, modelled as
`Crash.noSuchPipe`) instead of returning a checked error, and
`NRF24L01::push` (receiver mode, FIFO not full) caps the pipe to 5 and
performs the ACK-payload write (opcode `0xA8 | 5 = 173`) instead of
rejecting the pipe. -/
theorem invalid_pipe_crashes_or_writes :
    set_rx_addr 6 [1, 2, 3] = Except.error Crash.noSuchPipe
    ∧ push true 0 0 6 [1] = ([Action.readReg FIFO_STATUS, Action.command 173 [1]], none) := by
  constructor
  · rfl
  · decide

/-- C4 (amended): for every pipe number above 5, `set_rx_addr` panics
with the `No such pipe` panic and performs no register write, while
`push` in receiver mode (with a non-full TX FIFO and a payload of at
most 32 bytes) caps the pipe number to 5 and performs the ACK-payload
write with opcode `W_ACK_PAYLOAD | 5`.  Neither surfaces a checked
invalid-pipe error. -/
theorem invalid_pipe_amended :
    (∀ pipe_no addr, 5 < pipe_no → set_rx_addr pipe_no addr = Except.error Crash.noSuchPipe)
    ∧ (∀ s f pipe_num (data : List Nat),
        ¬(s &&& 1 ≠ 0 ∨ f &&& 32 ≠ 0) → data.length ≤ 32 → 5 < pipe_num →
        push true s f pipe_num data
          = ([Action.readReg FIFO_STATUS, Action.command (W_ACK_PAYLOAD ||| 5) data], none)) := by
  constructor
  · intro pipe_no addr h
    obtain ⟨p, rfl⟩ : ∃ p, pipe_no = p + 6 := ⟨pipe_no - 6, by omega⟩
    rfl
  · intro s f pipe_num data hfull hlen hpipe
    have h6 : ¬pipe_num < 6 := by omega
    have h32 : ¬data.length > 32 := by omega
    push_neg at hfull
    have h1 : s % 2 = 0 := by simpa using hfull.1
    simp [push, h6, h32, h1, hfull.2]

/-- C4 witness: the amended theorem applied at pipe 6 with an idle
chip and a one-byte payload. -/
theorem invalid_pipe_amended_witness :
    (5 < 6 ∧ set_rx_addr 6 [1, 2, 3] = Except.error Crash.noSuchPipe)
    ∧ (¬((0 : Nat) &&& 1 ≠ 0 ∨ (0 : Nat) &&& 32 ≠ 0) ∧ ([(1 : Nat)].length ≤ 32)
      ∧ push true 0 0 6 [1]
        = ([Action.readReg FIFO_STATUS, Action.command (W_ACK_PAYLOAD ||| 5) [1]], none)) :=
  ⟨⟨by decide, invalid_pipe_amended.1 6 [1, 2, 3] (by decide)⟩,
   by decide, by decide,
   invalid_pipe_amended.2 0 0 6 [1] (by decide) (by decide) (by decide)⟩

/-- C5 counterexample: `TxMode::send` applied to a 33-byte packet
performs the payload write of all 33 bytes and raises CE; it has no
error path and no truncation, refuting the claim that `send` rejects
every slice longer than 32 bytes with a hard error. -/
theorem oversized_send_not_rejected :
    send (List.replicate 33 0)
      = [Action.command W_TX_PAYLOAD (List.replicate 33 0), Action.ceHigh] := rfl

/-- C5 (amended): `NRF24L01::push` rejects payloads longer than 32
bytes with a hard error and never truncates them, but only after the
TX-FIFO-status read (exactly one bus transaction, the FIFO_STATUS read,
precedes the rejection); `TxMode::send` performs no length validation
at all and writes the entire slice to the bus. -/
theorem oversized_payload_amended :
    (∀ s f pipe_num (data : List Nat) (is_receiver : Bool),
      ¬(s &&& 1 ≠ 0 ∨ f &&& 32 ≠ 0) → 32 < data.length →
      push is_receiver s f pipe_num data = ([Action.readReg FIFO_STATUS], some PushErr.packetTooBig))
    ∧ (∀ packet : List Nat, send packet = [Action.command W_TX_PAYLOAD packet, Action.ceHigh]) := by
  constructor
  · intro s f pipe_num data is_receiver hfull hlen
    rw [push, if_neg hfull, if_pos (by omega)]
  · intro packet
    rfl

/-- C5 witness: the amended theorem applied to a 33-byte payload with
an idle chip. -/
theorem oversized_payload_amended_witness :
    ¬((0 : Nat) &&& 1 ≠ 0 ∨ (0 : Nat) &&& 32 ≠ 0)
    ∧ 32 < (List.replicate 33 1).length
    ∧ push false 0 0 0 (List.replicate 33 1)
      = ([Action.readReg FIFO_STATUS], some PushErr.packetTooBig) :=
  ⟨by decide, by simp,
   oversized_payload_amended.1 0 0 0 (List.replicate 33 1) false (by decide) (by simp)⟩

/-- C6: a `push` that observes a full TX FIFO (STATUS.TX_FULL, bit 0 of
the status byte, or FIFO_STATUS.TX_FULL, bit 5 of the FIFO_STATUS
byte) returns the queue-full error after the single FIFO_STATUS read;
no payload command of any kind is sent, so nothing in the queue is
dropped or overwritten. -/
theorem push_full_fifo_queue_full :
    ∀ (is_receiver : Bool) (s f pipe_num : Nat) (data : List Nat),
      (s &&& 1 ≠ 0 ∨ f &&& 32 ≠ 0) →
      push is_receiver s f pipe_num data = ([Action.readReg FIFO_STATUS], some PushErr.queueFull)
      ∧ ∀ op d, Action.command op d ∉ (push is_receiver s f pipe_num data).1 := by
  intro is_receiver s f pipe_num data hfull
  refine ⟨by rw [push, if_pos hfull], ?_⟩
  intro op d
  rw [push, if_pos hfull]
  simp

/-- C6 witness: the theorem applied with the chip reporting
STATUS.TX_FULL set. -/
theorem push_full_fifo_queue_full_witness :
    ((1 : Nat) &&& 1 ≠ 0 ∨ (0 : Nat) &&& 32 ≠ 0)
    ∧ push true 1 0 0 [] = ([Action.readReg FIFO_STATUS], some PushErr.queueFull) :=
  ⟨by decide, (push_full_fifo_queue_full true 1 0 0 [] (by decide)).1⟩

/-! ### RF channel (`lib.rs` lines 394-400, `config.rs` lines 79-90) -/

/-- Model of `NRF24L01::set_channel`: channels below 126 are written
unchanged, anything else is written as 125. -/
def set_channel (channel : Nat) : Action :=
  if channel < 126 then Action.writeReg RF_CH [channel]
  else Action.writeReg RF_CH [125]

/-- Model of `Configuration::set_frequency`: `assert!(freq_offset <
126)` (an assert failure for larger values), then write the offset into
the 7-bit `rf_ch` field of a zeroed RF_CH register. -/
def set_frequency (freq_offset : Nat) : Except Crash Action :=
  if freq_offset < 126 then
    Except.ok (Action.writeReg RF_CH [setBits 6 0 0 freq_offset])
  else Except.error Crash.assertFailed

/-- Nat helper: masking with a low bitmask is reduction modulo the next
power of two. -/
theorem land_mask_eq_mod (n k : Nat) : n &&& (2 ^ k - 1) = n % 2 ^ k :=
  Nat.and_pow_two_sub_one_eq_mod n k

/-- C7 counterexample: `set_frequency 126` hits the
`assert!(freq_offset < 126)` failure instead of writing the capped
value 125, refuting the claim that every channel value above 125 is
capped rather than rejected. -/
theorem set_frequency_126_asserts :
    set_frequency 126 = Except.error Crash.assertFailed := rfl

/-- C7 (amended): `NRF24L01::set_channel` writes `min channel 125` to
RF_CH for every channel value, but `Configuration::set_frequency`
caps nothing: it writes the channel unchanged when it is below 126 and
panics (assert failure) for every larger value. -/
theorem set_channel_caps_set_frequency_asserts :
    (∀ channel, set_channel channel = Action.writeReg RF_CH [min channel 125])
    ∧ (∀ freq_offset, freq_offset < 126 →
        set_frequency freq_offset = Except.ok (Action.writeReg RF_CH [freq_offset]))
    ∧ (∀ freq_offset, 125 < freq_offset →
        set_frequency freq_offset = Except.error Crash.assertFailed) := by
  refine ⟨?_, ?_, ?_⟩
  · intro channel
    by_cases h : channel < 126
    · have hm : min channel 125 = channel := by omega
      simp [set_channel, h, hm]
    · have hm : min channel 125 = 125 := by omega
      simp [set_channel, h, hm]
  · intro freq_offset h
    have hfield : setBits 6 0 0 freq_offset = freq_offset := by
      have h1 : setBits 6 0 0 freq_offset = freq_offset &&& (2 ^ 7 - 1) := by
        simp [setBits]
      rw [h1, land_mask_eq_mod]
      omega
    rw [set_frequency, if_pos h, hfield]
  · intro freq_offset h
    rw [set_frequency, if_neg (by omega)]

/-- C7 witness: the amended theorem applied at channels 108 (written
unchanged by `set_frequency`) and 130 (assert failure). -/
theorem set_channel_caps_set_frequency_asserts_witness :
    (108 < 126 ∧ set_frequency 108 = Except.ok (Action.writeReg RF_CH [108]))
    ∧ (125 < 130 ∧ set_frequency 130 = Except.error Crash.assertFailed) :=
  ⟨⟨by decide, set_channel_caps_set_frequency_asserts.2.1 108 (by decide)⟩,
   ⟨by decide, set_channel_caps_set_frequency_asserts.2.2 130 (by decide)⟩⟩

/-! ### Auto retransmit (`config.rs` lines 190-200, `lib.rs` lines
450-476) -/

/-- Model of `Configuration::set_auto_retransmit`: start from
`SetupRetr(0)`, run the bitfield setters `set_ard` (bits 7:4) and
`set_arc` (bits 3:0), write the result.  The bitfield setters mask
their argument to the 4-bit field width. -/
def set_auto_retransmit (delay count : Nat) : Action :=
  Action.writeReg SETUP_RETR [setBits 3 0 (setBits 7 4 0 delay) count]

/-- SETUP_RETR byte computed by `NRF24L01::configure_transmitter`:
`max_retries` above 15 becomes 15, `retry_delay` above 15 becomes
`0xF0` after the shift, then the two nibbles are or-ed. -/
def retr_byte (max_retries retry_delay : Nat) : Nat :=
  let retry_bits := if max_retries < 16 then max_retries else 15
  let retry_delay_bits := if retry_delay < 16 then retry_delay <<< 4 else 0xF0
  retry_delay_bits ||| retry_bits

/-- Nat helper: or-ing a shifted low nibble with a low nibble is plain
addition (checked over all 256 nibble pairs). -/
theorem nibble_or_eq_add :
    ∀ x < 16, ∀ b < 16, (x <<< 4) ||| b = 16 * x + b := by decide

/-- C8 counterexample: `set_auto_retransmit 16 16` writes the SETUP_RETR
byte 0 (both bitfield setters mask their argument modulo 16, so 16
becomes 0), not the byte 255 that clamping both values to 15 would
produce. -/
theorem set_auto_retransmit_16_wraps :
    set_auto_retransmit 16 16 = Action.writeReg SETUP_RETR [0]
    ∧ (0 : Nat) ≠ 255 := by
  constructor
  · decide
  · decide

/-- C8 (amended): `Configuration::set_auto_retransmit` masks each
argument to its low 4 bits (reduction modulo 16, a wrap rather than a
clamp), writing `ARD = delay % 16` into bits 7:4 and `ARC = count % 16`
into bits 3:0; `NRF24L01::configure_transmitter` does clamp both
parameters to at most 15 when it builds SETUP_RETR; and the scenario
holds: with `max_retries = 3`, `retry_delay = 2` the SETUP_RETR byte
reads back ARC = 3 (bits 3:0) and ARD = 2 (bits 7:4). -/
theorem auto_retransmit_masks_configure_clamps :
    (∀ delay count, set_auto_retransmit delay count
      = Action.writeReg SETUP_RETR [16 * (delay % 16) + count % 16])
    ∧ (∀ max_retries retry_delay,
        retr_byte max_retries retry_delay = 16 * min retry_delay 15 + min max_retries 15)
    ∧ getBits 3 0 (retr_byte 3 2) = 3 ∧ getBits 7 4 (retr_byte 3 2) = 2 := by
  refine ⟨?_, ?_, by decide, by decide⟩
  · intro delay count
    have hd : delay &&& 15 = delay % 16 := land_mask_eq_mod delay 4
    have hc : count &&& 15 = count % 16 := land_mask_eq_mod count 4
    have hbyte : setBits 3 0 (setBits 7 4 0 delay) count
        = (((delay % 16) <<< 4) &&& 240) ||| (count % 16) := by
      simp [setBits, hd, hc]
    have hmask : ∀ x < 16, ((x <<< 4) &&& 240) = x <<< 4 := by decide
    rw [set_auto_retransmit, hbyte, hmask _ (Nat.mod_lt _ (by omega)),
      nibble_or_eq_add _ (Nat.mod_lt _ (by omega)) _ (Nat.mod_lt _ (by omega))]
  · intro max_retries retry_delay
    by_cases hr : max_retries < 16
    · by_cases hd : retry_delay < 16
      · have h1 : min retry_delay 15 = retry_delay := by omega
        have h2 : min max_retries 15 = max_retries := by omega
        simp only [retr_byte, if_pos hr, if_pos hd, h1, h2]
        exact nibble_or_eq_add _ (by omega) _ (by omega)
      · have h1 : min retry_delay 15 = 15 := by omega
        have h2 : min max_retries 15 = max_retries := by omega
        simp only [retr_byte, if_pos hr, if_neg hd, h1, h2]
        have := nibble_or_eq_add 15 (by omega) max_retries (by omega)
        simpa using this
    · by_cases hd : retry_delay < 16
      · have h1 : min retry_delay 15 = retry_delay := by omega
        have h2 : min max_retries 15 = 15 := by omega
        simp only [retr_byte, if_neg hr, if_pos hd, h1, h2]
        exact nibble_or_eq_add _ (by omega) _ (by omega)
      · have h1 : min retry_delay 15 = 15 := by omega
        have h2 : min max_retries 15 = 15 := by omega
        simp only [retr_byte, if_neg hr, if_neg hd, h1, h2]
        decide

/-! ### `NRF24L01::configure` (`lib.rs` lines 526-544) and its two
mode-specific halves (`configure_receiver`, `configure_transmitter`) -/

/-- Supported air data rates (`lib.rs`). -/
inductive DataRate where
  | r250Kbps
  | r1Mbps
  | r2Mbps
  deriving DecidableEq, Repr

/-- Supported power amplifier levels (`lib.rs`). -/
inductive PALevel where
  | minLevel
  | low
  | high
  | maxLevel
  deriving DecidableEq, Repr

/-- RF_SETUP data-rate bits (`setup_rf`). -/
def rate_bits : DataRate → Nat
  | DataRate.r250Kbps => 0b00100000
  | DataRate.r1Mbps => 0
  | DataRate.r2Mbps => 0b00001000

/-- RF_SETUP power bits (`setup_rf`). -/
def level_bits : PALevel → Nat
  | PALevel.minLevel => 0
  | PALevel.low => 0b00000010
  | PALevel.high => 0b00000100
  | PALevel.maxLevel => 0b00000110

/-- Model of `NRF24L01::setup_rf`: one RF_SETUP write of the or-ed
rate and power bits. -/
def setup_rf (rate : DataRate) (level : PALevel) : Action :=
  Action.writeReg RF_SETUP [rate_bits rate ||| level_bits level]

/-- Model of `NRF24L01::set_full_address`: one 5-byte register write
(`W_REGISTER | pipe` followed by the address bytes). -/
def set_full_address (pipe : Nat) (address : List Nat) : Action :=
  Action.writeReg pipe address

/-- Receiver mode configuration record (`lib.rs`).  The address is the
5 bytes of the `[u8; 5]` array. -/
structure RXConfig where
  data_rate : DataRate
  channel : Nat
  pa_level : PALevel
  pipe0_address : List Nat
  pipe1_address : Option (List Nat)
  pipe2_addr_lsb : Option Nat
  pipe3_addr_lsb : Option Nat
  pipe4_addr_lsb : Option Nat
  pipe5_addr_lsb : Option Nat
  deriving DecidableEq, Repr

/-- Transmitter mode configuration record (`lib.rs`). -/
structure TXConfig where
  data_rate : DataRate
  channel : Nat
  pa_level : PALevel
  max_retries : Nat
  retry_delay : Nat
  pipe0_address : List Nat
  deriving DecidableEq, Repr

/-- The operating mode passed to `configure`. -/
inductive OperatingMode where
  | RX (config : RXConfig)
  | TX (config : TXConfig)
  deriving DecidableEq, Repr

/-- Actions and EN_RXADDR enable bit of the optional pipe-1 block of
`configure_receiver` (`if let Some(address) = config.pipe1_address`). -/
def pipe1_actions : Option (List Nat) → List Action × Nat
  | some address => ([set_full_address RX_ADDR_P1 address], 0b00000010)
  | none => ([], 0)

/-- Actions and EN_RXADDR enable bit of one optional single-byte pipe
block of `configure_receiver` (`if let Some(lsb) = ...` for pipes
2-5, each with its register address and enable bit). -/
def lsb_actions (pipe bit : Nat) : Option Nat → List Action × Nat
  | some lsb => ([Action.writeReg pipe [lsb]], bit)
  | none => ([], 0)

/-- Model of `NRF24L01::configure_receiver`: RF setup, channel, pipe-0
address, optional pipes 1-5 with their enable bits accumulated into the
EN_RXADDR byte, then the EN_RXADDR write.  Returns the bus actions and
the new `base_config` byte `0b00111101`. -/
def configure_receiver (config : RXConfig) : List Action × Nat :=
  let p1 := pipe1_actions config.pipe1_address
  let p2 := lsb_actions RX_ADDR_P2 0b00000100 config.pipe2_addr_lsb
  let p3 := lsb_actions RX_ADDR_P3 0b00001000 config.pipe3_addr_lsb
  let p4 := lsb_actions RX_ADDR_P4 0b00010000 config.pipe4_addr_lsb
  let p5 := lsb_actions RX_ADDR_P5 0b00100000 config.pipe5_addr_lsb
  let enabled := 1 ||| p1.2 ||| p2.2 ||| p3.2 ||| p4.2 ||| p5.2
  ([setup_rf config.data_rate config.pa_level,
    set_channel config.channel,
    set_full_address RX_ADDR_P0 config.pipe0_address]
    ++ p1.1 ++ p2.1 ++ p3.1 ++ p4.1 ++ p5.1
    ++ [Action.writeReg EN_RXADDR [enabled]],
   0b00111101)

/-- Model of `NRF24L01::configure_transmitter`: RF setup, channel,
pipe-0 and TX addresses, EN_RXADDR restricted to pipe 0, and the
SETUP_RETR byte built from the clamped retry parameters.  Returns the
bus actions and the new `base_config` byte `0b01001100`. -/
def configure_transmitter (config : TXConfig) : List Action × Nat :=
  ([setup_rf config.data_rate config.pa_level,
    set_channel config.channel,
    set_full_address RX_ADDR_P0 config.pipe0_address,
    set_full_address TX_ADDR config.pipe0_address,
    Action.writeReg EN_RXADDR [1],
    Action.writeReg SETUP_RETR [retr_byte config.max_retries config.retry_delay]],
   0b01001100)

/-- Model of `NRF24L01::configure`: lower CE, write EN_AA, DYNPD and
FEATURE, run the mode-specific half, then power up (a CONFIG write of
the returned base config with PWR_UP, bit 1, set). -/
def configure (mode : OperatingMode) : List Action :=
  let ms := match mode with
    | OperatingMode.RX config => configure_receiver config
    | OperatingMode.TX config => configure_transmitter config
  [Action.ceLow,
   Action.writeReg EN_AA [0b00111111],
   Action.writeReg DYNPD [0b00111111],
   Action.writeReg FEATURE [0b00000110]]
    ++ ms.1 ++ [Action.writeReg CONFIG [ms.2 ||| 0b00000010]]

/-- Helper: any action of the pipe-1 block is a write to RX_ADDR_P1. -/
theorem mem_pipe1_actions (o : Option (List Nat)) (a : Action)
    (h : a ∈ (pipe1_actions o).1) : ∃ address, a = Action.writeReg RX_ADDR_P1 address := by
  cases o with
  | none => simp [pipe1_actions] at h
  | some address => exact ⟨address, by simpa [pipe1_actions, set_full_address] using h⟩

/-- Helper: any action of an optional single-byte pipe block is a write
to that block's register. -/
theorem mem_lsb_actions (pipe bit : Nat) (o : Option Nat) (a : Action)
    (h : a ∈ (lsb_actions pipe bit o).1) : ∃ lsb, a = Action.writeReg pipe [lsb] := by
  cases o with
  | none => simp [lsb_actions] at h
  | some lsb => exact ⟨lsb, by simpa [lsb_actions] using h⟩

/-- Helper: no register write performed after the fixed four-action
prefix of `configure` targets EN_AA, DYNPD or FEATURE: the
mode-specific halves only write RF_SETUP, RF_CH, the address registers,
EN_RXADDR, SETUP_RETR and (through the final power-up) CONFIG. -/
theorem configure_tail_no_fixed_write (mode : OperatingMode) (addr : Nat) (data : List Nat)
    (h : Action.writeReg addr data ∈ (configure mode).drop 4) :
    addr ∉ ([EN_AA, DYNPD, FEATURE] : List Nat) := by
  cases mode with
  | RX config =>
    have hd : (configure (OperatingMode.RX config)).drop 4
        = (configure_receiver config).1
          ++ [Action.writeReg CONFIG [(configure_receiver config).2 ||| 0b00000010]] := rfl
    rw [hd, configure_receiver] at h
    simp only [List.mem_append, List.mem_cons, List.not_mem_nil, or_false] at h
    rcases h with (((((((h | h | h) | h) | h) | h) | h) | h) | h) | h
    · rw [setup_rf] at h
      injection h with h1 h2; subst h1; decide
    · rw [set_channel] at h
      split at h <;> (injection h with h1 h2; subst h1; decide)
    · rw [set_full_address] at h
      injection h with h1 h2; subst h1; decide
    · obtain ⟨address, ha⟩ := mem_pipe1_actions _ _ h
      injection ha with h1 h2; subst h1; decide
    · obtain ⟨lsb, ha⟩ := mem_lsb_actions _ _ _ _ h
      injection ha with h1 h2; subst h1; decide
    · obtain ⟨lsb, ha⟩ := mem_lsb_actions _ _ _ _ h
      injection ha with h1 h2; subst h1; decide
    · obtain ⟨lsb, ha⟩ := mem_lsb_actions _ _ _ _ h
      injection ha with h1 h2; subst h1; decide
    · obtain ⟨lsb, ha⟩ := mem_lsb_actions _ _ _ _ h
      injection ha with h1 h2; subst h1; decide
    · injection h with h1 h2; subst h1; decide
    · injection h with h1 h2; subst h1; decide
  | TX config =>
    have hd : (configure (OperatingMode.TX config)).drop 4
        = (configure_transmitter config).1
          ++ [Action.writeReg CONFIG [(configure_transmitter config).2 ||| 0b00000010]] := rfl
    rw [hd, configure_transmitter] at h
    simp only [List.mem_append, List.mem_cons, List.not_mem_nil, or_false] at h
    rcases h with (h | h | h | h | h | h) | h
    · rw [setup_rf] at h
      injection h with h1 h2; subst h1; decide
    · rw [set_channel] at h
      split at h <;> (injection h with h1 h2; subst h1; decide)
    · rw [set_full_address] at h
      injection h with h1 h2; subst h1; decide
    · rw [set_full_address] at h
      injection h with h1 h2; subst h1; decide
    · injection h with h1 h2; subst h1; decide
    · injection h with h1 h2; subst h1; decide
    · injection h with h1 h2; subst h1; decide

/-- C10: for every operating mode and every configuration record,
`configure` starts with exactly the CE drop and the three fixed writes
EN_AA := 0b00111111, DYNPD := 0b00111111, FEATURE := 0b00000110
(auto-ack, dynamic payload length and ACK payloads enabled on all six
pipes), and nothing after that prefix ever writes EN_AA, DYNPD or
FEATURE again — so these settings cannot be changed through
`configure`, whatever the configuration record contains. -/
theorem configure_always_enables_autoack_dynpd_feature :
    ∀ mode : OperatingMode,
      (configure mode).take 4
        = [Action.ceLow,
           Action.writeReg EN_AA [0b00111111],
           Action.writeReg DYNPD [0b00111111],
           Action.writeReg FEATURE [0b00000110]]
      ∧ (∀ data, Action.writeReg EN_AA data ∉ (configure mode).drop 4)
      ∧ (∀ data, Action.writeReg DYNPD data ∉ (configure mode).drop 4)
      ∧ (∀ data, Action.writeReg FEATURE data ∉ (configure mode).drop 4) := by
  intro mode
  refine ⟨by cases mode <;> rfl, ?_, ?_, ?_⟩
  · intro data h
    exact configure_tail_no_fixed_write mode EN_AA data h (by decide)
  · intro data h
    exact configure_tail_no_fixed_write mode DYNPD data h (by decide)
  · intro data h
    exact configure_tail_no_fixed_write mode FEATURE data h (by decide)

/-! ### Payload (`payload.rs`), `RxMode::read` (`rx.rs` lines 83-89)
and `NRF24L01::read_all` (`lib.rs` lines 637-668) -/

/-- A received packet: fixed 32-byte backing storage plus the actual
length (`payload.rs`). -/
structure Payload where
  data : List Nat
  len : Nat
  deriving DecidableEq, Repr

/-- Model of `Payload::new`: copy at most 32 source bytes into a zeroed
32-byte array, record the copied length. -/
def Payload.new (source : List Nat) : Payload :=
  let len := min source.length 32
  { data := source.take len ++ List.replicate (32 - len) 0, len := len }

/-- Model of `RxMode::read`: issue `ReadRxPayloadWidth`, then
unconditionally issue `ReadRxPayload` of exactly the width the chip
reported (no bound check of any kind), and decode the echoed bytes with
`Payload::new`.  `payload_width` is the chip's answer to the width
command and `echoed` the data bytes of the payload command's
response. -/
def rx_read (payload_width : Nat) (echoed : List Nat) : List Action × Payload :=
  ([Action.readPlWidth, Action.readPayload payload_width], Payload.new echoed)

/-- Model of the `while self.data_available()?` loop of
`NRF24L01::read_all`.  Each element of `env` is one iteration's chip
responses: the FIFO_STATUS byte answered to `data_available`, and the
width byte answered to `R_RX_PL_WID` (unused when the FIFO is empty).
`data_available` is true when FIFO_STATUS has at least one trailing
zero, i.e. RX_EMPTY (bit 0) is clear.  A zero width skips the payload
read entirely.  Otherwise the payload command uses the slice bound
`ubound = width + 1` on two 33-byte buffers, which panics when
`width + 1 > 33`.  The packet counter is a `u8` (wraps modulo 256).
The result is `none` if `env` is exhausted while the loop would keep
polling. -/
def readAllLoop : List (Nat × Nat) → Option (Except Crash (List Action × Nat))
  | [] => none
  | (f, w) :: rest =>
    if f.testBit 0 then some (Except.ok ([Action.readReg FIFO_STATUS], 0))
    else if w = 0 then
      (readAllLoop rest).map (Except.map (fun tc =>
        (Action.readReg FIFO_STATUS :: Action.readPlWidth :: tc.1, tc.2)))
    else if w + 1 ≤ 33 then
      (readAllLoop rest).map (Except.map (fun tc =>
        (Action.readReg FIFO_STATUS :: Action.readPlWidth :: Action.readPayload w :: tc.1,
         (tc.2 + 1) % 256)))
    else some (Except.error Crash.sliceOutOfBounds)

/-- Model of `NRF24L01::read_all`: save the CE state, lower CE, run the
queue-processing loop, clear the RX_DR interrupt (STATUS := 0b01000000)
and restore CE.  Returns the bus actions and the packet count. -/
def read_all (env : List (Nat × Nat)) : Option (Except Crash (List Action × Nat)) :=
  (readAllLoop env).map (Except.map (fun tc =>
    (Action.ceSave :: Action.ceLow :: tc.1
      ++ [Action.writeReg STATUS [0b01000000], Action.ceRestore], tc.2)))

/-- Helper: a successful `readAllLoop` trace never contains an RX flush
(the loop body has no flush path at all). -/
theorem readAllLoop_no_flush :
    ∀ env tr c, readAllLoop env = some (Except.ok (tr, c)) → Action.flushRx ∉ tr := by
  intro env
  induction env with
  | nil => intro tr c h; simp [readAllLoop] at h
  | cons p rest ih =>
    obtain ⟨f, w⟩ := p
    intro tr c h
    by_cases hb : f.testBit 0
    · simp [readAllLoop, hb] at h
      obtain ⟨rfl, -⟩ := h
      simp
    · by_cases hw : w = 0
      · subst hw
        simp only [readAllLoop, hb, Bool.false_eq_true, if_false, if_pos rfl] at h
        cases hr : readAllLoop rest with
        | none => rw [hr] at h; simp at h
        | some e =>
          rw [hr] at h
          cases e with
          | error crash => simp [Except.map] at h
          | ok tc =>
            simp at h
            obtain ⟨rfl, -⟩ := h
            have hmem := ih tc.1 tc.2 (by rw [hr])
            simp [hmem]
      · by_cases hw2 : w + 1 ≤ 33
        · simp only [readAllLoop, hb, Bool.false_eq_true, if_false, if_neg hw, if_pos hw2] at h
          cases hr : readAllLoop rest with
          | none => rw [hr] at h; simp at h
          | some e =>
            rw [hr] at h
            cases e with
            | error crash => simp [Except.map] at h
            | ok tc =>
              simp at h
              obtain ⟨rfl, -⟩ := h
              have hmem := ih tc.1 tc.2 (by rw [hr])
              simp [hmem]
        · simp only [readAllLoop, hb, Bool.false_eq_true, if_false, if_neg hw, if_neg hw2] at h
          simp at h

/-- C3 counterexample: at a reported width of 33, `RxMode::read` issues
the payload-read command with that very width (no flush, the payload
merely truncated to 32 bytes on decode), and `NRF24L01::read_all`
panics with the out-of-bounds slice `receive_buffer[..34]` on its
33-byte buffer — neither flushes the RX FIFO as the claim states. -/
theorem width_over_32_no_flush :
    (rx_read 33 (List.replicate 33 7)).1 = [Action.readPlWidth, Action.readPayload 33]
    ∧ read_all [(0, 33)] = some (Except.error Crash.sliceOutOfBounds) := by
  constructor
  · rfl
  · rfl

/-- C3 (amended): a zero reported width makes `read_all` skip the
payload-read command and the packet counter for that iteration; a
reported width above 32 makes `read_all` panic with an out-of-bounds
slice (rather than flush the RX FIFO); no successful `read_all` run
ever issues an RX flush; and `RxMode::read` always issues the
payload-read command with exactly the reported width, whatever it is,
returning the decoded payload truncated to at most 32 bytes. -/
theorem read_width_boundaries_amended :
    (∀ (f : Nat) (rest : List (Nat × Nat)), f.testBit 0 = false →
      readAllLoop ((f, 0) :: rest)
        = (readAllLoop rest).map (Except.map (fun tc =>
            (Action.readReg FIFO_STATUS :: Action.readPlWidth :: tc.1, tc.2))))
    ∧ (∀ (f w : Nat) (rest : List (Nat × Nat)), f.testBit 0 = false → 32 < w →
        readAllLoop ((f, w) :: rest) = some (Except.error Crash.sliceOutOfBounds))
    ∧ (∀ env tr c, read_all env = some (Except.ok (tr, c)) → Action.flushRx ∉ tr)
    ∧ (∀ payload_width echoed, rx_read payload_width echoed
        = ([Action.readPlWidth, Action.readPayload payload_width], Payload.new echoed)
        ∧ (Payload.new echoed).len ≤ 32) := by
  refine ⟨?_, ?_, ?_, ?_⟩
  · intro f rest hf
    simp [readAllLoop, hf]
  · intro f w rest hf hw
    rw [readAllLoop]
    rw [if_neg (by simp [hf]), if_neg (by omega), if_neg (by omega)]
  · intro env tr c h
    rw [read_all] at h
    cases hr : readAllLoop env with
    | none => rw [hr] at h; simp at h
    | some e =>
      rw [hr] at h
      cases e with
      | error crash => simp [Except.map] at h
      | ok tc =>
        simp at h
        obtain ⟨rfl, -⟩ := h
        have hmem := readAllLoop_no_flush env tc.1 tc.2 (by rw [hr])
        simp [hmem]
  · intro payload_width echoed
    exact ⟨rfl, by simp [Payload.new]⟩

/-- C3 witness: the amended theorem applied to a width-0 iteration and
to a width-33 iteration on an idle chip. -/
theorem read_width_boundaries_amended_witness :
    (Nat.testBit 0 0 = false
      ∧ readAllLoop [((0 : Nat), (0 : Nat))]
        = (readAllLoop []).map (Except.map (fun tc =>
            (Action.readReg FIFO_STATUS :: Action.readPlWidth :: tc.1, tc.2))))
    ∧ ((32 : Nat) < 33
      ∧ readAllLoop [((0 : Nat), (33 : Nat))] = some (Except.error Crash.sliceOutOfBounds)) :=
  ⟨⟨by decide, read_width_boundaries_amended.1 0 [] (by decide)⟩,
   ⟨by decide, read_width_boundaries_amended.2.1 0 33 [] (by decide) (by decide)⟩⟩

/-! ### `Device::update_register` (`device.rs` lines 29-48) and
`Device::update_config`

`update_register` is generic over the register type, which must be
clonable and comparable by value; we model a register value by an
arbitrary type with decidable equality, and the caller's `FnOnce(&mut
Reg) -> R` closure by a function producing the mutated register and
its result. -/

/-- Bus actions of the generic register-update path, carrying register
values of type `α`. -/
inductive UAction (α : Type) where
  | readReg (addr : Nat)
  | writeReg (addr : Nat) (value : α)
  deriving DecidableEq, Repr

/-- Model of `Device::update_register`: assert the register is not
CONFIG (address 0x00 — using the generic path for CONFIG is a panic),
read the register (`old` is the chip's answer), apply `f` to a clone,
and write the mutated value back only if it differs by value equality
from the value read. -/
def update_register {α β : Type} [DecidableEq α] (addr : Nat) (old : α) (f : α → α × β) :
    Except Crash (β × List (UAction α)) :=
  if addr = 0 then Except.error Crash.assertFailed
  else
    let mutated := f old
    if mutated.1 ≠ old then
      Except.ok (mutated.2, [UAction.readReg addr, UAction.writeReg addr mutated.1])
    else
      Except.ok (mutated.2, [UAction.readReg addr])

/-- Modelled from the spec: the concrete `Device` implementation that
carries the cached CONFIG shadow copy is not part of these sources
(`device.rs` only declares `update_config` in the trait).  Per the
spec, `update_config` applies the caller's function to the cached
shadow copy — no register read — and writes CONFIG back only when the
value changed.  Returns the closure result, the new cache contents and
the bus actions. -/
def update_config {β : Type} (cached : Nat) (f : Nat → Nat × β) :
    β × Nat × List (UAction Nat) :=
  let mutated := f cached
  if mutated.1 ≠ cached then (mutated.2, mutated.1, [UAction.writeReg 0 mutated.1])
  else (mutated.2, cached, [])

/-- C9: `update_register` on a non-CONFIG register performs the read
and then a write exactly when the mutated value differs by value
equality from the value read (and no write when it does not); applying
it to the CONFIG register address 0x00 is excluded (assert failure);
and `update_config` works on the cached shadow copy with no read,
writing CONFIG if and only if the mutated value changed, while
returning the closure result. -/
theorem update_register_writes_only_on_change :
    (∀ {α β : Type} [DecidableEq α] (addr : Nat) (old : α) (f : α → α × β),
      addr ≠ 0 →
      update_register addr old f
        = Except.ok ((f old).2,
            if (f old).1 ≠ old then [UAction.readReg addr, UAction.writeReg addr (f old).1]
            else [UAction.readReg addr]))
    ∧ (∀ {α β : Type} [DecidableEq α] (old : α) (f : α → α × β),
        update_register 0 old f = Except.error Crash.assertFailed)
    ∧ (∀ {β : Type} (cached : Nat) (f : Nat → Nat × β),
        ((update_config cached f).2.2 = [] ↔ (f cached).1 = cached)
        ∧ (update_config cached f).1 = (f cached).2
        ∧ (UAction.writeReg 0 (f cached).1 ∈ (update_config cached f).2.2 ↔ (f cached).1 ≠ cached)) := by
  refine ⟨?_, ?_, ?_⟩
  · intro α β inst addr old f h
    rw [update_register, if_neg h]
    by_cases hc : (f old).1 = old
    · rw [if_neg (by simpa using hc), if_neg (by simpa using hc)]
    · rw [if_pos (by simpa using hc), if_pos (by simpa using hc)]
  · intro α β inst old f
    rw [update_register, if_pos rfl]
  · intro β cached f
    by_cases hc : (f cached).1 = cached <;>
      simp [update_config, hc]

/-- C9 witness: the theorem applied at register address 7 with the old
value 3 and a closure that increments the register and returns the old
value; the mutated value differs, so the read is followed by a
write. -/
theorem update_register_writes_only_on_change_witness :
    (7 : Nat) ≠ 0
    ∧ update_register 7 (3 : Nat) (fun x => (x + 1, x))
      = Except.ok (3,
          if ((3 : Nat) + 1, (3 : Nat)).1 ≠ 3 then
            [UAction.readReg 7, UAction.writeReg 7 ((3 : Nat) + 1)]
          else [UAction.readReg 7]) :=
  ⟨by decide, update_register_writes_only_on_change.1 7 3 (fun x => (x + 1, x)) (by decide)⟩

end Nrf24
